import Mathlib

/-!
Shallow embedding of the lima GPU device bring-up core
(`drivers/gpu/drm/lima/lima_device.c`) and broadcast unit
(`drivers/gpu/drm/lima/lima_bcast.c`) from the numbqq/linux tree.

Conventions of the embedding:
* Machine `int` error codes are modelled as `Int` (Linux error codes are
  negative; success is `0`), 32-bit register values as `Nat` below `2 ^ 32`.
* External collaborators (clock/regulator/reset handles, irq lookup, the
  per-block type-specific `init` functions, the scheduler's pipe init) are
  modelled by an environment `Env` recording the result each call returns.
* Side effects that matter to the specification (which `fini`/release
  routines run, and in which order) are recorded as a trace of `Event`s.
* A `struct lima_ip *` reference is modelled by the slot's index in the
  device's instance array, as the instances live in one fixed array and
  never move; pointer equality becomes index equality.
-/

/-- Chip variant (`enum lima_gpu_id` in lima_device.h, outside src): the
4-PP Mali400 and the 8-PP Mali450 with load balancing. -/
inductive lima_gpu where
  | mali400
  | mali450
deriving DecidableEq, Repr

/-- Observable side effects of bring-up/teardown, at the granularity of the
cleanup calls issued by `lima_device.c`. -/
inductive Event where
  | ip_init_call (i : Nat)
  | ip_fini_call (i : Nat)
  | gp_pipe_fini
  | pp_pipe_fini
  | sched_pipe_fini (p : Nat)
  | dlbu_free
  | vm_put
  | regulator_fini
  | clk_fini
deriving DecidableEq, Repr

/-- Linux `-ENOMEM`. -/
def ENOMEM : Int := -12

/-- Linux `-ENODEV`. -/
def ENODEV : Int := -19

/-- Modelled from the spec: slot indices of `enum lima_ip_id`
(lima_device.h, outside src). The order follows the descriptor-table
listing in lima_device.c, which matches the kind list in spec section 3. -/
def lima_ip_pmu : Nat := 0

def lima_ip_l2_cache0 : Nat := 1

def lima_ip_l2_cache1 : Nat := 2

def lima_ip_l2_cache2 : Nat := 3

def lima_ip_gp : Nat := 4

def lima_ip_pp0 : Nat := 5

def lima_ip_pp7 : Nat := 12

def lima_ip_gpmmu : Nat := 13

def lima_ip_ppmmu0 : Nat := 14

def lima_ip_dlbu : Nat := 22

def lima_ip_bcast : Nat := 23

def lima_ip_pp_bcast : Nat := 24

def lima_ip_ppmmu_bcast : Nat := 25

/-- Number of slot kinds (`lima_ip_num`). -/
def lima_ip_num : Nat := 26

/-- Modelled from the spec: the two pipelines (`lima_pipe_gp`/`lima_pipe_pp`
of lima_sched.h, outside src); spec section 3 names a geometry and a
fragment pipeline. -/
def lima_pipe_gp : Nat := 0

def lima_pipe_pp : Nat := 1

/-- Modelled from the spec: `LIMA_SCHED_PIPE_MAX_PROCESSOR` (lima_sched.h,
outside src); the spec fixes at most 8 fragment processors and the loop in
`lima_init_pp_pipe` walks `pp0 + i` up to `pp7`. -/
def LIMA_SCHED_PIPE_MAX_PROCESSOR : Nat := 8

/-- One row of the static IP block descriptor table (`struct lima_ip_desc`):
display name, optional interrupt-line name, per-variant mandatory flag and
per-variant register offset (`-1` meaning absent). The type-specific
init/fini function pointers are modelled through `Env.ip_init` and the
`Event.ip_fini_call` trace. -/
structure lima_ip_desc_t where
  name : String
  irq_name : Option String
  must_have : lima_gpu → Bool
  offset : lima_gpu → Int

/-- Per-variant pair, mirroring the `LIMA_IP_DESC` macro columns
(mali400 first, mali450 second). -/
def byGpu (a b : Bool) : lima_gpu → Bool
  | .mali400 => a
  | .mali450 => b

/-- Per-variant offset pair, mirroring the `LIMA_IP_DESC` macro columns. -/
def offGpu (a b : Int) : lima_gpu → Int
  | .mali400 => a
  | .mali450 => b

/-- The static descriptor table `lima_ip_desc[]` of lima_device.c, row by
row. Indices outside the table get an absent, non-mandatory row (the code
never reads them: every loop is bounded by `lima_ip_num`). -/
def lima_ip_desc : Nat → lima_ip_desc_t
  | 0 => ⟨"pmu", some "pmu", byGpu false false, offGpu 0x02000 0x02000⟩
  | 1 => ⟨"l2_cache0", none, byGpu true true, offGpu 0x01000 0x10000⟩
  | 2 => ⟨"l2_cache1", none, byGpu false true, offGpu (-1) 0x01000⟩
  | 3 => ⟨"l2_cache2", none, byGpu false false, offGpu (-1) 0x11000⟩
  | 4 => ⟨"gp", some "gp", byGpu true true, offGpu 0x00000 0x00000⟩
  | 5 => ⟨"pp0", some "pp0", byGpu true true, offGpu 0x08000 0x08000⟩
  | 6 => ⟨"pp1", some "pp1", byGpu false false, offGpu 0x0A000 0x0A000⟩
  | 7 => ⟨"pp2", some "pp2", byGpu false false, offGpu 0x0C000 0x0C000⟩
  | 8 => ⟨"pp3", some "pp3", byGpu false false, offGpu 0x0E000 0x0E000⟩
  | 9 => ⟨"pp4", some "pp4", byGpu false false, offGpu (-1) 0x28000⟩
  | 10 => ⟨"pp5", some "pp5", byGpu false false, offGpu (-1) 0x2A000⟩
  | 11 => ⟨"pp6", some "pp6", byGpu false false, offGpu (-1) 0x2C000⟩
  | 12 => ⟨"pp7", some "pp7", byGpu false false, offGpu (-1) 0x2E000⟩
  | 13 => ⟨"gpmmu", some "gpmmu", byGpu true true, offGpu 0x03000 0x03000⟩
  | 14 => ⟨"ppmmu0", some "ppmmu0", byGpu true true, offGpu 0x04000 0x04000⟩
  | 15 => ⟨"ppmmu1", some "ppmmu1", byGpu false false, offGpu 0x05000 0x05000⟩
  | 16 => ⟨"ppmmu2", some "ppmmu2", byGpu false false, offGpu 0x06000 0x06000⟩
  | 17 => ⟨"ppmmu3", some "ppmmu3", byGpu false false, offGpu 0x07000 0x07000⟩
  | 18 => ⟨"ppmmu4", some "ppmmu4", byGpu false false, offGpu (-1) 0x1C000⟩
  | 19 => ⟨"ppmmu5", some "ppmmu5", byGpu false false, offGpu (-1) 0x1D000⟩
  | 20 => ⟨"ppmmu6", some "ppmmu6", byGpu false false, offGpu (-1) 0x1E000⟩
  | 21 => ⟨"ppmmu7", some "ppmmu7", byGpu false false, offGpu (-1) 0x1F000⟩
  | 22 => ⟨"dlbu", none, byGpu false true, offGpu (-1) 0x14000⟩
  | 23 => ⟨"bcast", none, byGpu false true, offGpu (-1) 0x13000⟩
  | 24 => ⟨"pp_bcast", some "pp", byGpu false true, offGpu (-1) 0x16000⟩
  | 25 => ⟨"ppmmu_bcast", none, byGpu false true, offGpu (-1) 0x15000⟩
  | _ => ⟨"", none, byGpu false false, offGpu (-1) (-1)⟩

/-- Runtime record for one slot (`struct lima_ip`): back-reference to the
device (modelled as the flag that `ip->dev` was assigned), kind id, the
register sub-window (the offset added to the device base, `none` while
unassigned), the resolved interrupt number, and the presence flag. All
fields start as the kzalloc'd zero state. -/
structure lima_ip where
  hasDev : Bool := false
  id : Nat := 0
  iomem : Option Int := none
  irq : Option Int := none
  present : Bool := false
deriving DecidableEq, Repr

/-- Zero-initialized slot instance. -/
def freshIp : lima_ip := {}

/-- One scheduler pipe (`struct lima_sched_pipe`, composition fields only):
the C code appends into fixed arrays at `num_*++` and only ever reads below
the write index (or reads the kzalloc'd NULL above it), so each array is
modelled by the list of written entries, a reference being a slot index. -/
structure lima_sched_pipe where
  l2_cache : List Nat := []
  mmu : List Nat := []
  processor : List Nat := []
  bcast_processor : Option Nat := none
  bcast_mmu : Option Nat := none
deriving DecidableEq, Repr

/-- Fresh (kzalloc'd) pipe. -/
def emptyPipe : lima_sched_pipe := {}

/-- The device (`struct lima_device`): variant, the 26-entry instance
array, the two pipes, and the acquisition flags the bring-up claims talk
about (register window mapped, DLBU scratch page allocated, regulator
handle obtained, empty VM created, reset line present). -/
structure lima_device where
  id : lima_gpu
  ip : List lima_ip := List.replicate lima_ip_num freshIp
  gp_pipe : lima_sched_pipe := {}
  pp_pipe : lima_sched_pipe := {}
  iomem : Bool := false
  dlbu_cpu : Bool := false
  regulator : Bool := false
  empty_vm : Bool := false
  reset : Bool := false
deriving DecidableEq, Repr

/-- Read `dev->ip[i]` (always in bounds in the C code). -/
def lima_device.getIp (dev : lima_device) (i : Nat) : lima_ip :=
  dev.ip.getD i freshIp

/-- Write `dev->ip[i]`. -/
def lima_device.setIp (dev : lima_device) (i : Nat) (v : lima_ip) : lima_device :=
  { dev with ip := dev.ip.set i v }

/-- Fresh device of the given variant, as kzalloc'd by the probe path. -/
def mkDevice (v : lima_gpu) : lima_device := { id := v }

/-- Results of every external call the bring-up makes, one field per
call site: `Int` results follow the C conventions checked at the call
site (`IS_ERR`/negative, or nonzero) and `Bool` fields model pointer
results checked against NULL. -/
structure Env where
  clk_get_bus : Int := 0
  clk_get_core : Int := 0
  clk_prepare_bus : Int := 0
  clk_prepare_gpu : Int := 0
  reset_get : Int := 0
  reset_deassert : Int := 0
  regulator_get : Int := 0
  regulator_enable : Int := 0
  vm_create_ok : Bool := true
  dlbu_alloc_ok : Bool := true
  ioremap_err : Int := 0
  get_irq : String → Int := fun _ => 0
  ip_init : Nat → Int := fun _ => 0
  sched_pipe_init : Nat → Int := fun _ => 0
  gp_pipe_init : Int := 0
  pp_pipe_init : Int := 0

/-- Embedding of `lima_clk_init` (lima_device.c:80-124): acquire bus and
core clocks, enable both, optionally pick up and deassert a reset line.
`reset_get = 0` models the NULL (no reset line) result, negative models
`IS_ERR`. The internal unwind of this stage releases only its own clocks
and is not traced (no claim observes it). -/
def lima_clk_init (env : Env) (dev : lima_device) : Int × lima_device :=
  if env.clk_get_bus < 0 then (env.clk_get_bus, dev)
  else if env.clk_get_core < 0 then (env.clk_get_core, dev)
  else if env.clk_prepare_bus ≠ 0 then (env.clk_prepare_bus, dev)
  else if env.clk_prepare_gpu ≠ 0 then (env.clk_prepare_gpu, dev)
  else if env.reset_get < 0 then (env.reset_get, dev)
  else if 0 < env.reset_get ∧ env.reset_deassert ≠ 0 then (env.reset_deassert, dev)
  else (0, { dev with reset := 0 < env.reset_get })

/-- Embedding of `lima_regulator_init` (lima_device.c:134-154): a missing
regulator (`-ENODEV` from the optional get) is not an error; any other get
error, or a failed enable, is returned. -/
def lima_regulator_init (env : Env) (dev : lima_device) : Int × lima_device :=
  if env.regulator_get < 0 then
    let dev := { dev with regulator := false }
    if env.regulator_get = ENODEV then (0, dev) else (env.regulator_get, dev)
  else
    let dev := { dev with regulator := true }
    if env.regulator_enable < 0 then (env.regulator_enable, dev) else (0, dev)

/-- Embedding of `lima_init_ip` (lima_device.c:162-191). An absent offset
skips the slot. Otherwise the instance's back-reference, id and register
sub-window are assigned, the interrupt is resolved by name when the row
declares one, and the type-specific init runs; its invocation is traced.
Failures return the error only when the slot is mandatory for the active
variant (`return must ? err : 0`). -/
def lima_init_ip (env : Env) (dev : lima_device) (index : Nat) :
    Int × lima_device × List Event :=
  let desc := lima_ip_desc index
  let offset := desc.offset dev.id
  let must := desc.must_have dev.id
  if offset < 0 then (0, dev, [])
  else
    let ip := { dev.getIp index with hasDev := true, id := index, iomem := some offset }
    match desc.irq_name with
    | some nm =>
      let e := env.get_irq nm
      if e < 0 then ((if must then e else 0), dev.setIp index ip, [])
      else
        let ip := { ip with irq := some e }
        let e2 := env.ip_init index
        if e2 = 0 then
          (0, dev.setIp index { ip with present := true }, [.ip_init_call index])
        else
          ((if must then e2 else 0), dev.setIp index ip, [.ip_init_call index])
    | none =>
      let e2 := env.ip_init index
      if e2 = 0 then
        (0, dev.setIp index { ip with present := true }, [.ip_init_call index])
      else
        ((if must then e2 else 0), dev.setIp index ip, [.ip_init_call index])

/-- Embedding of `lima_fini_ip` (lima_device.c:193-200): the type-specific
fini runs only when the presence flag is set; the call is the traced
event. -/
def lima_fini_ip (dev : lima_device) (index : Nat) : List Event :=
  if (dev.getIp index).present then [.ip_fini_call index] else []

/-- Result of the per-slot init loop of `lima_device_init`
(lima_device.c:323-327): first error (0 when none), the loop index at
which it stopped (`lima_ip_num` on success), the device, and the trace. -/
structure LoopRes where
  err : Int
  idx : Nat
  dev : lima_device
  tr : List Event

/-- The per-slot init loop of `lima_device_init` (lima_device.c:323-327),
over the list of remaining slot indices: stop at the first nonzero
`lima_init_ip` result. -/
def initIpLoop (env : Env) : lima_device → List Nat → LoopRes
  | dev, [] => ⟨0, lima_ip_num, dev, []⟩
  | dev, i :: rest =>
    let r := lima_init_ip env dev i
    if r.1 ≠ 0 then ⟨r.1, i, r.2.1, r.2.2⟩
    else
      let s := initIpLoop env r.2.1 rest
      ⟨s.err, s.idx, s.dev, r.2.2 ++ s.tr⟩

/-- The `err_out4` unwind of `lima_device_init` (lima_device.c:342-343):
`while (--i >= 0) lima_fini_ip(ldev, i)` starting from loop index `k`. -/
def unwindIps (dev : lima_device) : Nat → List Event
  | 0 => []
  | k + 1 => lima_fini_ip dev k ++ unwindIps dev k

/-- The common tail of the unwind (`err_out3` .. `err_out0`,
lima_device.c:344-353): free the DLBU page if allocated, put the empty VM,
release the regulator, release the clocks. -/
def tailUnwind (dev : lima_device) : List Event :=
  (if dev.dlbu_cpu then [Event.dlbu_free] else [])
    ++ [Event.vm_put, Event.regulator_fini, Event.clk_fini]

/-- Embedding of `lima_init_gp_pipe` (lima_device.c:202-220): create the
scheduler pipe, append l2_cache0, gpmmu and gp unconditionally, run the
GP pipe init; on its failure finalize the scheduler pipe and return the
error. -/
def lima_init_gp_pipe (env : Env) (dev : lima_device) :
    Int × lima_device × List Event :=
  let e := env.sched_pipe_init lima_pipe_gp
  if e ≠ 0 then (e, dev, [])
  else
    let pipe := dev.gp_pipe
    let pipe := { pipe with
      l2_cache := pipe.l2_cache ++ [lima_ip_l2_cache0],
      mmu := pipe.mmu ++ [lima_ip_gpmmu],
      processor := pipe.processor ++ [lima_ip_gp] }
    let dev := { dev with gp_pipe := pipe }
    if env.gp_pipe_init ≠ 0 then
      (env.gp_pipe_init, dev, [.sched_pipe_fini lima_pipe_gp])
    else (0, dev, [])

/-- The `pp`/`ppmmu`/`l2_cache` triple consulted at fragment position `i`
of `lima_init_pp_pipe`: on Mali400 all positions share `l2_cache0`, on
Mali450 group `i >> 2` uses `l2_cache1 + (i >> 2)`. -/
def ppCacheIdx (dev : lima_device) (i : Nat) : Nat :=
  if dev.id = lima_gpu.mali400 then lima_ip_l2_cache0
  else lima_ip_l2_cache1 + (i >>> 2)

/-- Position `i` joins the fragment pipeline iff its processor, its MMU and
its L2 cache are all present (lima_device.c:248). -/
def ppIncl (dev : lima_device) (i : Nat) : Bool :=
  (dev.getIp (lima_ip_pp0 + i)).present
    && (dev.getIp (lima_ip_ppmmu0 + i)).present
    && (dev.getIp (ppCacheIdx dev i)).present

/-- Loop body of `lima_init_pp_pipe` (lima_device.c:238-254) at position
`i`: when the position is included, append the MMU and processor, and
append the L2 cache only when the array cell at `i >> 2` is still NULL. -/
def ppStep (dev : lima_device) (pipe : lima_sched_pipe) (i : Nat) : lima_sched_pipe :=
  if ppIncl dev i then
    let pipe := { pipe with
      mmu := pipe.mmu ++ [lima_ip_ppmmu0 + i],
      processor := pipe.processor ++ [lima_ip_pp0 + i] }
    if (pipe.l2_cache.get? (i >>> 2)).isNone then
      { pipe with l2_cache := pipe.l2_cache ++ [ppCacheIdx dev i] }
    else pipe
  else pipe

/-- The composition phase of `lima_init_pp_pipe` (lima_device.c:238-259):
the position loop followed by the broadcast-reference assignment done when
the bcast slot is present. -/
def lima_pp_pipe_compose (dev : lima_device) (pipe : lima_sched_pipe) : lima_sched_pipe :=
  let pipe := (List.range LIMA_SCHED_PIPE_MAX_PROCESSOR).foldl (ppStep dev) pipe
  if (dev.getIp lima_ip_bcast).present then
    { pipe with bcast_processor := some lima_ip_pp_bcast,
                bcast_mmu := some lima_ip_ppmmu_bcast }
  else pipe

/-- Embedding of `lima_init_pp_pipe` (lima_device.c:230-267): create the
scheduler pipe, compose, run the PP pipe init; on its failure finalize the
scheduler pipe and return the error. -/
def lima_init_pp_pipe (env : Env) (dev : lima_device) :
    Int × lima_device × List Event :=
  let e := env.sched_pipe_init lima_pipe_pp
  if e ≠ 0 then (e, dev, [])
  else
    let dev := { dev with pp_pipe := lima_pp_pipe_compose dev dev.pp_pipe }
    if env.pp_pipe_init ≠ 0 then
      (env.pp_pipe_init, dev, [.sched_pipe_fini lima_pipe_pp])
    else (0, dev, [])

/-- Embedding of `lima_device_init` (lima_device.c:277-355): the staged
bring-up with its `err_out5`..`err_out0` unwind ladder. Returns the error
(0 on success), the device, and the trace of init/cleanup calls. -/
def lima_device_init (env : Env) (dev0 : lima_device) :
    Int × lima_device × List Event :=
  let r1 := lima_clk_init env dev0
  if r1.1 ≠ 0 then (r1.1, r1.2, [])
  else
    let r2 := lima_regulator_init env r1.2
    if r2.1 ≠ 0 then (r2.1, r2.2, [.clk_fini])
    else
      let d2 := r2.2
      if env.vm_create_ok = false then (ENOMEM, d2, [.regulator_fini, .clk_fini])
      else
        let d3 := { d2 with empty_vm := true }
        if d3.id = lima_gpu.mali450 ∧ env.dlbu_alloc_ok = false then
          (ENOMEM, d3, [.vm_put, .regulator_fini, .clk_fini])
        else
          let d4 := if d3.id = lima_gpu.mali450 then { d3 with dlbu_cpu := true } else d3
          if env.ioremap_err ≠ 0 then (env.ioremap_err, d4, tailUnwind d4)
          else
            let d5 := { d4 with iomem := true }
            let rl := initIpLoop env d5 (List.range lima_ip_num)
            if rl.err ≠ 0 then
              (rl.err, rl.dev, rl.tr ++ unwindIps rl.dev rl.idx ++ tailUnwind rl.dev)
            else
              let rg := lima_init_gp_pipe env rl.dev
              if rg.1 ≠ 0 then
                (rg.1, rg.2.1,
                  rl.tr ++ rg.2.2 ++ unwindIps rg.2.1 lima_ip_num ++ tailUnwind rg.2.1)
              else
                let rp := lima_init_pp_pipe env rg.2.1
                if rp.1 ≠ 0 then
                  (rp.1, rp.2.1,
                    rl.tr ++ rg.2.2 ++ rp.2.2
                      ++ [.gp_pipe_fini, .sched_pipe_fini lima_pipe_gp]
                      ++ unwindIps rp.2.1 lima_ip_num ++ tailUnwind rp.2.1)
                else (0, rp.2.1, rl.tr ++ rg.2.2 ++ rp.2.2)

/-- Embedding of `lima_device_fini` (lima_device.c:357-376): fragment pipe
teardown, geometry pipe teardown, all slots in reverse order, DLBU page,
empty VM, regulator, clocks. -/
def lima_device_fini (dev : lima_device) : List Event :=
  [.pp_pipe_fini, .sched_pipe_fini lima_pipe_pp,
   .gp_pipe_fini, .sched_pipe_fini lima_pipe_gp]
    ++ unwindIps dev lima_ip_num ++ tailUnwind dev

/-- The device state reached by `lima_device_init` after the VM/DLBU stage,
just before register-window mapping. -/
def devPreMap (env : Env) (dev0 : lima_device) : lima_device :=
  let d2 := (lima_regulator_init env (lima_clk_init env dev0).2).2
  let d3 := { d2 with empty_vm := true }
  if d3.id = lima_gpu.mali450 then { d3 with dlbu_cpu := true } else d3

/-- The device state reached by `lima_device_init` once the register window
is mapped, on which the per-slot init loop runs. -/
def devReady (env : Env) (dev0 : lima_device) : lima_device :=
  { devPreMap env dev0 with iomem := true }

/-- Mali-450 broadcast unit register state (lima_bcast.c): the
`LIMA_BCAST_BROADCAST_MASK` and `LIMA_BCAST_INTERRUPT_MASK` registers the
two functions write through the bcast slot's sub-window. -/
structure BcastRegs where
  broadcast_mask : Nat := 0
  interrupt_mask : Nat := 0
deriving DecidableEq, Repr

/-- The mask `lima_bcast_init` computes (lima_bcast.c:30-35): bit
`i - lima_ip_pp0` set for every present fragment-processor slot. -/
def lima_bcast_mask (dev : lima_device) : Nat :=
  (List.range' lima_ip_pp0 8).foldl
    (fun m i => if (dev.getIp i).present then m ||| (1 <<< (i - lima_ip_pp0)) else m) 0

/-- Embedding of `lima_bcast_init` (lima_bcast.c:28-40): write the
present-PP mask shifted left by 16 into the broadcast-mask register and
unshifted into the interrupt-mask register; always return 0. -/
def lima_bcast_init (dev : lima_device) (regs : BcastRegs) : Int × BcastRegs :=
  let mask := lima_bcast_mask dev
  (0, { regs with broadcast_mask := mask <<< 16, interrupt_mask := mask })

/-- Embedding of `lima_bcast_enable` (lima_bcast.c:14-26): keep the upper
16 bits of the broadcast-mask register, OR in one bit per scheduled
processor (`1 << (pp->id - lima_ip_pp0)` for the first `num_pp` entries of
the fragment pipeline's processor list), and write the result back. The
interrupt-mask register is not touched. -/
def lima_bcast_enable (dev : lima_device) (num_pp : Nat) (regs : BcastRegs) : BcastRegs :=
  let pipe := dev.pp_pipe
  let mask := (pipe.processor.take num_pp).foldl
    (fun m p => m ||| (1 <<< ((dev.getIp p).id - lima_ip_pp0)))
    (regs.broadcast_mask &&& 0xffff0000)
  { regs with broadcast_mask := mask }

/-- Bitmask of the slot positions of the first `num_pp` processors
registered in the fragment pipeline's processor list, stated independently
of the accumulator-threading of the C loop. -/
def enableMaskSpec (dev : lima_device) (num_pp : Nat) : Nat :=
  ((dev.pp_pipe.processor.take num_pp).map
    (fun p => 1 <<< ((dev.getIp p).id - lima_ip_pp0))).foldr (· ||| ·) 0

/-- Modelled from the spec's words for claim C4 (refinement comparison
only): `enable` is claimed to rewrite only the target-select half of the
register — the half into which `init` shifted the select bits, i.e. the
upper half — with the recomputed bitmask, preserving the interrupt-enable
bits (the lower half) unchanged from `init`. -/
def lima_bcast_enable_claimed (dev : lima_device) (num_pp : Nat) (regs : BcastRegs) :
    BcastRegs :=
  { regs with broadcast_mask :=
      (enableMaskSpec dev num_pp <<< 16) ||| (regs.broadcast_mask &&& 0xffff) }

/-- Keep only the type-specific `fini` invocations of a trace. -/
def isIpFini : Event → Bool
  | .ip_fini_call _ => true
  | _ => false

/-- Left-to-right first-seen deduplication, the spec's description of how
the L2-cache list is built ("append the L2 cache only if it is not already
present in the pipeline's L2-cache list"). -/
def dedupFirstSeen (l : List Nat) : List Nat :=
  l.foldl (fun acc x => if x ∈ acc then acc else acc ++ [x]) []

/-- The candidate L2 cache of every included fragment position, in position
order (the reference sequence the spec says gets deduplicated). -/
def ppIncludedCaches (dev : lima_device) : List Nat :=
  (List.range LIMA_SCHED_PIPE_MAX_PROCESSOR).filterMap
    (fun i => if ppIncl dev i then some (ppCacheIdx dev i) else none)

/-- The effect of one `ppStep` on the L2-cache list alone, as a function of
the position's include bit and candidate cache. -/
def l2StepB (b : Bool) (c : Nat) (i : Nat) (acc : List Nat) : List Nat :=
  if b then (if (acc.get? (i >>> 2)).isNone then acc ++ [c] else acc) else acc

/-- The L2-cache list produced by the 8 fragment positions, as a function
of an 8-entry include-bit list and the variant's cache assignment. -/
def l2fold8 (cache : Nat → Nat) (bs : List Bool) : List Nat :=
  (List.range 8).foldl (fun acc i => l2StepB (bs.getD i false) (cache i) i acc) []

/-- The included-candidate-cache sequence as a function of the include-bit
list. -/
def caches8 (cache : Nat → Nat) (bs : List Bool) : List Nat :=
  (List.range 8).filterMap (fun i => if bs.getD i false then some (cache i) else none)

/-- Mali400 cache assignment: every position uses `l2_cache0`. -/
def c400 : Nat → Nat := fun _ => lima_ip_l2_cache0

/-- Mali450 cache assignment: group `i >> 2` uses `l2_cache1 + (i >> 2)`. -/
def c450 : Nat → Nat := fun i => lima_ip_l2_cache1 + (i >>> 2)

/-- The present-PP mask of `lima_bcast_init`, as a function of the 8
presence bits. -/
def maskOfBits (bs : List Bool) : Nat :=
  (List.range 8).foldl (fun m j => if bs.getD j false then m ||| (1 <<< j) else m) 0

/-- Device with the given slots marked present (each instance carrying its
own index as id), used to instantiate the theorems on concrete inputs. -/
def mkPresDevice (v : lima_gpu) (pres : List Nat) : lima_device :=
  { id := v,
    ip := (List.range lima_ip_num).map
      (fun i => if pres.contains i then
          { hasDev := true, id := i, iomem := some 0, present := true }
        else { id := i }) }

/-- Mali450 device with the variant's mandatory slots present plus `pp4`,
`pp5`, their MMUs and `l2_cache2`. -/
def dev450W : lima_device :=
  mkPresDevice .mali450 [1, 2, 3, 4, 5, 9, 10, 13, 14, 18, 19, 22, 23, 24, 25]

/-- Mali450 device with `pp0` and `pp1` present (with MMUs and caches) and
its fragment pipeline composed, the concrete input for the broadcast-unit
claims. -/
def bcastDevC : lima_device :=
  let d := mkPresDevice .mali450 [1, 2, 4, 5, 6, 13, 14, 15, 22, 23, 24, 25]
  { d with pp_pipe := lima_pp_pipe_compose d emptyPipe }

/-- Broadcast registers as programmed by `lima_bcast_init` on `bcastDevC`. -/
def bcastRegsC : BcastRegs := (lima_bcast_init bcastDevC {}).2

/-- Environment in which every external call succeeds except the
type-specific init of slot 4 (the geometry processor). -/
def envC1 : Env := { ip_init := fun i => if i = 4 then -5 else 0 }

/-- The per-slot loop result of that failing Mali400 bring-up. -/
def loopC1 : LoopRes :=
  initIpLoop envC1 (devReady envC1 (mkDevice .mali400)) (List.range lima_ip_num)

lemma getD_set_self {α : Type} (l : List α) (i : Nat) (v d : α) (h : i < l.length) :
    (l.set i v).getD i d = v := by
  induction l generalizing i with
  | nil => simp at h
  | cons a t ih =>
    cases i with
    | zero => rfl
    | succ n => simpa using ih n (by simpa using h)

lemma lima_device.getIp_setIp (dev : lima_device) (i : Nat) (v : lima_ip)
    (h : i < dev.ip.length) : (dev.setIp i v).getIp i = v :=
  getD_set_self dev.ip i v freshIp h

@[simp] lemma lima_clk_init_id (env : Env) (dev : lima_device) :
    ((lima_clk_init env dev).2).id = dev.id := by
  unfold lima_clk_init; split_ifs <;> rfl

@[simp] lemma lima_clk_init_dlbu (env : Env) (dev : lima_device) :
    ((lima_clk_init env dev).2).dlbu_cpu = dev.dlbu_cpu := by
  unfold lima_clk_init; split_ifs <;> rfl

@[simp] lemma lima_regulator_init_id (env : Env) (dev : lima_device) :
    ((lima_regulator_init env dev).2).id = dev.id := by
  unfold lima_regulator_init; split_ifs <;> rfl

@[simp] lemma lima_regulator_init_dlbu (env : Env) (dev : lima_device) :
    ((lima_regulator_init env dev).2).dlbu_cpu = dev.dlbu_cpu := by
  unfold lima_regulator_init; split_ifs <;> rfl

lemma foldl_proj {α β γ : Type} (f : γ → α → γ) (g : β → α → β) (p : γ → β)
    (h : ∀ s a, p (f s a) = g (p s) a) :
    ∀ (l : List α) (s : γ), p (l.foldl f s) = l.foldl g (p s)
  | [], _ => rfl
  | a :: l, s => by
    rw [List.foldl_cons, List.foldl_cons, foldl_proj f g p h l, h]

lemma foldl_congr_on {α β : Type} (f g : β → α → β) :
    ∀ (l : List α) (s : β), (∀ a ∈ l, ∀ t, f t a = g t a) → l.foldl f s = l.foldl g s
  | [], _, _ => rfl
  | a :: l, s, h => by
    rw [List.foldl_cons, List.foldl_cons, h a (by simp)]
    exact foldl_congr_on f g l _ (fun b hb t => h b (by simp [hb]) t)

lemma filterMap_congr_on {α β : Type} (f g : α → Option β) :
    ∀ (l : List α), (∀ a ∈ l, f a = g a) → l.filterMap f = l.filterMap g
  | [], _ => rfl
  | a :: l, h => by
    rw [List.filterMap_cons, List.filterMap_cons, h a (by simp),
      filterMap_congr_on f g l (fun b hb => h b (by simp [hb]))]

lemma ppStep_l2 (dev : lima_device) (pipe : lima_sched_pipe) (i : Nat) :
    (ppStep dev pipe i).l2_cache = l2StepB (ppIncl dev i) (ppCacheIdx dev i) i pipe.l2_cache := by
  unfold ppStep l2StepB
  cases hb : ppIncl dev i <;> simp
  split <;> rfl

lemma compose_l2 (dev : lima_device) (pipe : lima_sched_pipe) :
    (lima_pp_pipe_compose dev pipe).l2_cache
      = (List.range 8).foldl
          (fun acc i => l2StepB (ppIncl dev i) (ppCacheIdx dev i) i acc) pipe.l2_cache := by
  unfold lima_pp_pipe_compose
  have h := foldl_proj (ppStep dev)
    (fun acc i => l2StepB (ppIncl dev i) (ppCacheIdx dev i) i acc)
    (fun p => p.l2_cache) (fun s a => ppStep_l2 dev s a)
    (List.range LIMA_SCHED_PIPE_MAX_PROCESSOR) pipe
  split <;> simpa [LIMA_SCHED_PIPE_MAX_PROCESSOR] using h

lemma initIp_no_fini (env : Env) (dev : lima_device) (i : Nat) :
    (lima_init_ip env dev i).2.2.filter isIpFini = [] := by
  unfold lima_init_ip
  cases h : (lima_ip_desc i).irq_name <;> simp only [h] <;> split_ifs <;> rfl

lemma initIpLoop_no_fini (env : Env) :
    ∀ (l : List Nat) (dev : lima_device), (initIpLoop env dev l).tr.filter isIpFini = []
  | [], _ => rfl
  | i :: rest, dev => by
    by_cases h : (lima_init_ip env dev i).1 ≠ 0
    · simp only [initIpLoop, if_pos h]
      exact initIp_no_fini env dev i
    · simp only [initIpLoop, if_neg h, List.filter_append, initIp_no_fini,
        initIpLoop_no_fini env rest, List.append_nil]

lemma unwindIps_filter (dev : lima_device) :
    ∀ k, (unwindIps dev k).filter isIpFini = unwindIps dev k
  | 0 => rfl
  | k + 1 => by
    unfold unwindIps lima_fini_ip
    rw [List.filter_append, unwindIps_filter dev k]
    split_ifs <;> rfl

lemma tailUnwind_no_fini (dev : lima_device) :
    (tailUnwind dev).filter isIpFini = [] := by
  unfold tailUnwind; split_ifs <;> rfl

lemma unwindIps_desc (dev : lima_device) :
    ∀ k, unwindIps dev k
      = ((List.range k).reverse.filter (fun j => (dev.getIp j).present)).map Event.ip_fini_call
  | 0 => rfl
  | k + 1 => by
    rw [List.range_succ, List.reverse_append]
    unfold unwindIps lima_fini_ip
    rw [unwindIps_desc dev k]
    simp only [List.reverse_cons, List.reverse_nil, List.nil_append, List.cons_append]
    rw [List.filter_cons]
    split_ifs with h <;> simp [h]

lemma maskOfBits_spec : ∀ b0 b1 b2 b3 b4 b5 b6 b7 : Bool,
    (∀ j, j < 8 → (maskOfBits [b0, b1, b2, b3, b4, b5, b6, b7]).testBit j
        = [b0, b1, b2, b3, b4, b5, b6, b7].getD j false)
    ∧ maskOfBits [b0, b1, b2, b3, b4, b5, b6, b7] < 256 := by decide

lemma l2ok400 : ∀ b0 b1 b2 b3 : Bool, b0 = true →
    (l2fold8 c400 [b0, b1, b2, b3, false, false, false, false]).Nodup
    ∧ l2fold8 c400 [b0, b1, b2, b3, false, false, false, false]
        = dedupFirstSeen (caches8 c400 [b0, b1, b2, b3, false, false, false, false]) := by
  decide

lemma l2ok450 : ∀ b0 b1 b2 b3 b4 b5 b6 b7 : Bool, b0 = true →
    (l2fold8 c450 [b0, b1, b2, b3, b4, b5, b6, b7]).Nodup
    ∧ l2fold8 c450 [b0, b1, b2, b3, b4, b5, b6, b7]
        = dedupFirstSeen (caches8 c450 [b0, b1, b2, b3, b4, b5, b6, b7]) := by
  decide

lemma pp_l2_via_bits (dev : lima_device) (cache : Nat → Nat) (bs : List Bool)
    (hc : ∀ i, i < 8 → cache i = ppCacheIdx dev i)
    (hb : ∀ i, i < 8 → bs.getD i false = ppIncl dev i) :
    (lima_pp_pipe_compose dev emptyPipe).l2_cache = l2fold8 cache bs
    ∧ ppIncludedCaches dev = caches8 cache bs := by
  constructor
  · have he : emptyPipe.l2_cache = ([] : List Nat) := rfl
    rw [compose_l2, he]
    unfold l2fold8
    exact foldl_congr_on _ _ (List.range 8) [] (fun a ha t => by
      have h8 : a < 8 := by simpa [List.mem_range] using ha
      rw [hb a h8, hc a h8])
  · unfold ppIncludedCaches caches8 LIMA_SCHED_PIPE_MAX_PROCESSOR
    exact filterMap_congr_on _ _ (List.range 8) (fun a ha => by
      have h8 : a < 8 := by simpa [List.mem_range] using ha
      rw [hb a h8, hc a h8])

/-- Claim C2: for every chip variant and every subset of optional-block
presence (mandatory slots present, slots without an offset absent — the
states reachable when composition runs), the fragment pipeline's L2-cache
list has no duplicate references, and equals the first-seen-order
deduplication of the included positions' candidate caches. -/
theorem claim_C2 (dev : lima_device)
    (hman : ∀ i, i < lima_ip_num → (lima_ip_desc i).must_have dev.id = true →
      (dev.getIp i).present = true)
    (hofs : ∀ i, i < lima_ip_num → (lima_ip_desc i).offset dev.id < 0 →
      (dev.getIp i).present = false) :
    ((lima_pp_pipe_compose dev emptyPipe).l2_cache).Nodup
    ∧ (lima_pp_pipe_compose dev emptyPipe).l2_cache
        = dedupFirstSeen (ppIncludedCaches dev) := by
  cases hid : dev.id with
  | mali400 =>
    have hp5 : (dev.getIp 5).present = true := hman 5 (by decide) (by rw [hid]; rfl)
    have hp14 : (dev.getIp 14).present = true := hman 14 (by decide) (by rw [hid]; rfl)
    have hp1 : (dev.getIp 1).present = true := hman 1 (by decide) (by rw [hid]; rfl)
    have h0 : ppIncl dev 0 = true := by
      simp [ppIncl, ppCacheIdx, hid, lima_ip_pp0, lima_ip_ppmmu0, lima_ip_l2_cache0,
        hp5, hp14, hp1]
    have habs : ∀ i, 4 ≤ i → i < 8 → ppIncl dev i = false := by
      intro i h4 h8
      have hpp : (dev.getIp (lima_ip_pp0 + i)).present = false := by
        interval_cases i
        · exact hofs 9 (by decide) (by rw [hid]; decide)
        · exact hofs 10 (by decide) (by rw [hid]; decide)
        · exact hofs 11 (by decide) (by rw [hid]; decide)
        · exact hofs 12 (by decide) (by rw [hid]; decide)
      simp [ppIncl, hpp]
    obtain ⟨hl2, hcaches⟩ := pp_l2_via_bits dev c400
      [ppIncl dev 0, ppIncl dev 1, ppIncl dev 2, ppIncl dev 3, false, false, false, false]
      (fun i _ => by simp [c400, ppCacheIdx, hid])
      (fun i h8 => by
        interval_cases i
        · rfl
        · rfl
        · rfl
        · rfl
        · exact (habs 4 (by decide) (by decide)).symm
        · exact (habs 5 (by decide) (by decide)).symm
        · exact (habs 6 (by decide) (by decide)).symm
        · exact (habs 7 (by decide) (by decide)).symm)
    rw [hl2, hcaches]
    exact l2ok400 _ _ _ _ h0
  | mali450 =>
    have hp5 : (dev.getIp 5).present = true := hman 5 (by decide) (by rw [hid]; rfl)
    have hp14 : (dev.getIp 14).present = true := hman 14 (by decide) (by rw [hid]; rfl)
    have hp2 : (dev.getIp 2).present = true := hman 2 (by decide) (by rw [hid]; rfl)
    have h0 : ppIncl dev 0 = true := by
      simp [ppIncl, ppCacheIdx, hid, lima_ip_pp0, lima_ip_ppmmu0, lima_ip_l2_cache1,
        hp5, hp14, hp2]
    obtain ⟨hl2, hcaches⟩ := pp_l2_via_bits dev c450
      [ppIncl dev 0, ppIncl dev 1, ppIncl dev 2, ppIncl dev 3,
       ppIncl dev 4, ppIncl dev 5, ppIncl dev 6, ppIncl dev 7]
      (fun i _ => by simp [c450, ppCacheIdx, hid])
      (fun i h8 => by interval_cases i <;> rfl)
    rw [hl2, hcaches]
    exact l2ok450 _ _ _ _ _ _ _ _ h0

/-- Witness for claim C2 at a concrete Mali450 device with `pp4`/`pp5`
present. -/
theorem claim_C2_witness :
    ((lima_pp_pipe_compose dev450W emptyPipe).l2_cache).Nodup
    ∧ (lima_pp_pipe_compose dev450W emptyPipe).l2_cache
        = dedupFirstSeen (ppIncludedCaches dev450W) :=
  claim_C2 dev450W (by decide) (by decide)

/-- Claim C6: a slot whose descriptor offset is absent for the active
variant is skipped: per-slot init returns success, does not invoke the
type-specific init (empty trace), and leaves the device — hence the slot's
presence flag — unchanged, regardless of the mandatory flag. -/
theorem claim_C6 (env : Env) (dev : lima_device) (k : Nat)
    (hofs : (lima_ip_desc k).offset dev.id < 0) :
    lima_init_ip env dev k = (0, dev, [])
    ∧ ((lima_init_ip env dev k).2.1.getIp k).present = (dev.getIp k).present := by
  have h : lima_init_ip env dev k = (0, dev, []) := by
    simp only [lima_init_ip]
    rw [if_pos hofs]
  exact ⟨h, by rw [h]⟩

/-- Witness for claim C6: `l2_cache1` (a mandatory Mali450 slot) has no
offset on Mali400 and is skipped there. -/
theorem claim_C6_witness :
    (lima_ip_desc 2).offset (mkDevice .mali400).id < 0
    ∧ lima_init_ip {} (mkDevice .mali400) 2 = (0, mkDevice .mali400, []) :=
  ⟨by decide, (claim_C6 {} (mkDevice .mali400) 2 (by decide)).1⟩

/-- Claim C9: for a slot with a present offset, per-slot init assigns the
back-reference, the kind id and the register sub-window on every path —
also when interrupt resolution or the type-specific init fails, so a slot
left absent still carries these populated fields. -/
theorem claim_C9 (env : Env) (dev : lima_device) (k : Nat)
    (hwf : dev.ip.length = lima_ip_num) (hk : k < lima_ip_num)
    (hofs : 0 ≤ (lima_ip_desc k).offset dev.id) :
    ((lima_init_ip env dev k).2.1.getIp k).hasDev = true
    ∧ ((lima_init_ip env dev k).2.1.getIp k).id = k
    ∧ ((lima_init_ip env dev k).2.1.getIp k).iomem
        = some ((lima_ip_desc k).offset dev.id) := by
  have hlt : k < dev.ip.length := by rw [hwf]; exact hk
  have hnot : ¬ (lima_ip_desc k).offset dev.id < 0 := not_lt.mpr hofs
  cases hq : (lima_ip_desc k).irq_name with
  | none =>
    simp only [lima_init_ip, hq]
    rw [if_neg hnot]
    by_cases h2 : env.ip_init k = 0 <;>
      simp [h2, lima_device.getIp_setIp _ _ _ hlt]
  | some nm =>
    simp only [lima_init_ip, hq]
    rw [if_neg hnot]
    by_cases h1 : env.get_irq nm < 0
    · simp [h1, lima_device.getIp_setIp _ _ _ hlt]
    · by_cases h2 : env.ip_init k = 0 <;>
        simp [h1, h2, lima_device.getIp_setIp _ _ _ hlt]

/-- Witness for claim C9: the PMU slot of a fresh Mali400 device, whose
type-specific init fails, still gets dev/id/iomem assigned. -/
theorem claim_C9_witness :
    ((lima_init_ip { ip_init := fun _ => -5 } (mkDevice .mali400) 0).2.1.getIp 0).hasDev = true
    ∧ ((lima_init_ip { ip_init := fun _ => -5 } (mkDevice .mali400) 0).2.1.getIp 0).id = 0
    ∧ ((lima_init_ip { ip_init := fun _ => -5 } (mkDevice .mali400) 0).2.1.getIp 0).iomem
        = some ((lima_ip_desc 0).offset (mkDevice .mali400).id) :=
  claim_C9 { ip_init := fun _ => -5 } (mkDevice .mali400) 0 (by decide) (by decide) (by decide)

/-- Claim C5: a slot with a present offset whose type-specific init fails
returns the error exactly when the slot is mandatory for the active
variant (else success), leaves presence false, and — within the bring-up
loop — aborts the loop with that error exactly when mandatory, otherwise
continuing with the remaining slots. -/
theorem claim_C5 (env : Env) (dev : lima_device) (k : Nat) (rest : List Nat) (e : Int)
    (hwf : dev.ip.length = lima_ip_num) (hk : k < lima_ip_num)
    (hpres : (dev.getIp k).present = false)
    (hofs : 0 ≤ (lima_ip_desc k).offset dev.id)
    (hirq : ∀ nm, (lima_ip_desc k).irq_name = some nm → 0 ≤ env.get_irq nm)
    (hini : env.ip_init k = e) (he : e ≠ 0) :
    (lima_init_ip env dev k).1
      = (if (lima_ip_desc k).must_have dev.id = true then e else 0)
    ∧ ((lima_init_ip env dev k).2.1.getIp k).present = false
    ∧ ((lima_ip_desc k).must_have dev.id = true →
        initIpLoop env dev (k :: rest)
          = ⟨e, k, (lima_init_ip env dev k).2.1, (lima_init_ip env dev k).2.2⟩)
    ∧ ((lima_ip_desc k).must_have dev.id = false →
        initIpLoop env dev (k :: rest)
          = ⟨(initIpLoop env (lima_init_ip env dev k).2.1 rest).err,
             (initIpLoop env (lima_init_ip env dev k).2.1 rest).idx,
             (initIpLoop env (lima_init_ip env dev k).2.1 rest).dev,
             (lima_init_ip env dev k).2.2
               ++ (initIpLoop env (lima_init_ip env dev k).2.1 rest).tr⟩) := by
  have hlt : k < dev.ip.length := by rw [hwf]; exact hk
  have hnot : ¬ (lima_ip_desc k).offset dev.id < 0 := not_lt.mpr hofs
  have hA : (lima_init_ip env dev k).1
      = (if (lima_ip_desc k).must_have dev.id = true then e else 0) := by
    cases hq : (lima_ip_desc k).irq_name with
    | none =>
      simp only [lima_init_ip, hq]
      rw [if_neg hnot]
      simp [hini, he]
    | some nm =>
      simp only [lima_init_ip, hq]
      rw [if_neg hnot]
      simp [not_lt.mpr (hirq nm hq), hini, he]
  have hB : ((lima_init_ip env dev k).2.1.getIp k).present = false := by
    cases hq : (lima_ip_desc k).irq_name with
    | none =>
      simp only [lima_init_ip, hq]
      rw [if_neg hnot]
      simp [hini, he, lima_device.getIp_setIp _ _ _ hlt, hpres]
    | some nm =>
      simp only [lima_init_ip, hq]
      rw [if_neg hnot]
      simp [not_lt.mpr (hirq nm hq), hini, he, lima_device.getIp_setIp _ _ _ hlt, hpres]
  refine ⟨hA, hB, ?_, ?_⟩
  · intro hmust
    have h1 : (lima_init_ip env dev k).1 = e := by rw [hA, if_pos hmust]
    simp only [initIpLoop]
    rw [h1, if_pos he]
  · intro hmustf
    have h1 : (lima_init_ip env dev k).1 = 0 := by rw [hA]; simp [hmustf]
    simp only [initIpLoop]
    rw [h1]
    simp

/-- Witness for claim C5: the optional `pp1` slot of a Mali400 device whose
type-specific init fails with `-EINVAL`. -/
theorem claim_C5_witness :
    (lima_init_ip { ip_init := fun i => if i = 6 then -22 else 0 } (mkDevice .mali400) 6).1
      = (if (lima_ip_desc 6).must_have (mkDevice .mali400).id = true then (-22 : Int) else 0)
    ∧ ((lima_init_ip { ip_init := fun i => if i = 6 then -22 else 0 }
          (mkDevice .mali400) 6).2.1.getIp 6).present = false :=
  have h := claim_C5 { ip_init := fun i => if i = 6 then -22 else 0 }
    (mkDevice .mali400) 6 [7] (-22) (by decide) (by decide) (by decide) (by decide)
    (by intro nm h; exact le_refl 0) (by decide) (by decide)
  ⟨h.1, h.2.1⟩

lemma bcast_mask_bits (dev : lima_device) :
    lima_bcast_mask dev = maskOfBits
      [(dev.getIp 5).present, (dev.getIp 6).present, (dev.getIp 7).present,
       (dev.getIp 8).present, (dev.getIp 9).present, (dev.getIp 10).present,
       (dev.getIp 11).present, (dev.getIp 12).present] := rfl

lemma foldl_or_acc {α : Type} (f : α → Nat) :
    ∀ (l : List α) (m : Nat),
      l.foldl (fun acc x => acc ||| f x) m = m ||| (l.map f).foldr (· ||| ·) 0
  | [], m => by simp
  | x :: l, m => by
    rw [List.foldl_cons, foldl_or_acc f l (m ||| f x)]
    simp [Nat.or_assoc]

/-- Claim C7: broadcast-unit init computes the bitmask of the present
fragment-processor slots (bit `j` iff slot `pp0 + j` is present, nothing
above bit 7), writes it into the interrupt-mask register and — shifted
into the upper half — into the broadcast-mask register, reports success
unconditionally, and is independent of how the pipelines were composed. -/
theorem claim_C7 (dev : lima_device) (regs : BcastRegs)
    (pgp ppp : lima_sched_pipe) (j : Nat) (hj : j < 8) :
    (lima_bcast_init dev regs).1 = 0
    ∧ (lima_bcast_init dev regs).2.broadcast_mask = lima_bcast_mask dev <<< 16
    ∧ (lima_bcast_init dev regs).2.interrupt_mask = lima_bcast_mask dev
    ∧ (lima_bcast_mask dev).testBit j = (dev.getIp (lima_ip_pp0 + j)).present
    ∧ lima_bcast_mask dev < 256
    ∧ lima_bcast_init { dev with gp_pipe := pgp, pp_pipe := ppp } regs
        = lima_bcast_init dev regs := by
  obtain ⟨ht, hb⟩ := maskOfBits_spec (dev.getIp 5).present (dev.getIp 6).present
    (dev.getIp 7).present (dev.getIp 8).present (dev.getIp 9).present
    (dev.getIp 10).present (dev.getIp 11).present (dev.getIp 12).present
  refine ⟨rfl, rfl, rfl, ?_, ?_, rfl⟩
  · rw [bcast_mask_bits, ht j hj]
    interval_cases j <;> rfl
  · rw [bcast_mask_bits]
    exact hb

/-- Witness for claim C7 at the concrete composed Mali450 device. -/
theorem claim_C7_witness :
    (lima_bcast_init bcastDevC ({} : BcastRegs)).1 = 0
    ∧ (lima_bcast_mask bcastDevC).testBit 1 = (bcastDevC.getIp (lima_ip_pp0 + 1)).present
    ∧ lima_bcast_mask bcastDevC < 256 :=
  have h := claim_C7 bcastDevC {} emptyPipe emptyPipe 1 (by decide)
  ⟨h.1, h.2.2.2.1, h.2.2.2.2.1⟩

/-- Claim C4, amended: `broadcast_enable` recomputes the bitmask of the
slot positions of the first `num_pp` pipeline-registered processors, but
writes it unshifted into the lower half of the broadcast-mask register,
preserving that register's upper half — the half into which `init` shifted
the select bits — and leaves the interrupt-mask register untouched. -/
theorem claim_C4_amended (dev : lima_device) (num_pp : Nat) (regs : BcastRegs)
    (h : num_pp ≤ dev.pp_pipe.processor.length) :
    lima_bcast_enable dev num_pp regs
      = { regs with broadcast_mask :=
            (regs.broadcast_mask &&& 0xffff0000) ||| enableMaskSpec dev num_pp }
    ∧ (lima_bcast_enable dev num_pp regs).interrupt_mask = regs.interrupt_mask := by
  have hm : (dev.pp_pipe.processor.take num_pp).foldl
      (fun m p => m ||| (1 <<< ((dev.getIp p).id - lima_ip_pp0)))
      (regs.broadcast_mask &&& 0xffff0000)
    = (regs.broadcast_mask &&& 0xffff0000) ||| enableMaskSpec dev num_pp := by
    unfold enableMaskSpec
    exact foldl_or_acc _ _ _
  constructor
  · simp only [lima_bcast_enable]
    rw [hm]
  · rfl

/-- Counterexample to claim C4 as stated: on a Mali450 with `pp0`, `pp1`
present and initialized broadcast registers, `enable(dev, 1)` does not
rewrite the shifted (upper, target-select) half while preserving the lower
half — it does the opposite. -/
theorem claim_C4_counterexample :
    lima_bcast_enable bcastDevC 1 bcastRegsC
      ≠ lima_bcast_enable_claimed bcastDevC 1 bcastRegsC := by decide

/-- Witness for the amended claim C4 at the same concrete device. -/
theorem claim_C4_witness :
    1 ≤ bcastDevC.pp_pipe.processor.length
    ∧ lima_bcast_enable bcastDevC 1 bcastRegsC
        = { bcastRegsC with broadcast_mask :=
              (bcastRegsC.broadcast_mask &&& 0xffff0000) ||| enableMaskSpec bcastDevC 1 } :=
  ⟨by decide, (claim_C4_amended bcastDevC 1 bcastRegsC (by decide)).1⟩

/-- Claim C8: geometry-pipeline composition cannot fail once per-slot init
has completed: the slot-collection step is unconditional, so with the
external scheduler-pipe creation and GP pipe init succeeding (the spec
treats composition as infallible; those two bodies live outside this
excerpt), `lima_init_gp_pipe` returns success and registers exactly one L2
cache (slot `l2_cache0`), one geometry MMU and one geometry processor. -/
theorem claim_C8 (env : Env) (dev : lima_device)
    (hs : env.sched_pipe_init lima_pipe_gp = 0) (hg : env.gp_pipe_init = 0)
    (hpipe : dev.gp_pipe = emptyPipe) :
    (lima_init_gp_pipe env dev).1 = 0
    ∧ (lima_init_gp_pipe env dev).2.1.gp_pipe.l2_cache = [lima_ip_l2_cache0]
    ∧ (lima_init_gp_pipe env dev).2.1.gp_pipe.mmu = [lima_ip_gpmmu]
    ∧ (lima_init_gp_pipe env dev).2.1.gp_pipe.processor = [lima_ip_gp] := by
  simp only [lima_init_gp_pipe, hs, hg, hpipe]
  refine ⟨rfl, rfl, rfl, rfl⟩

/-- Witness for claim C8 on a fresh Mali400 device. -/
theorem claim_C8_witness :
    (lima_init_gp_pipe {} (mkDevice .mali400)).1 = 0
    ∧ (lima_init_gp_pipe {} (mkDevice .mali400)).2.1.gp_pipe.processor = [lima_ip_gp] :=
  have h := claim_C8 {} (mkDevice .mali400) (by decide) (by decide) (by decide)
  ⟨h.1, h.2.2.2⟩

/-- Claim C10: for both pipelines, when the pipe-specific init fails after
the scheduler pipe object was created (and the slot lists populated), the
scheduler pipe object is finalized before the error is returned: the
result carries exactly the error and the `sched_pipe_fini` trace. -/
theorem claim_C10 (env : Env) (dev : lima_device) (eg ep : Int)
    (hsg : env.sched_pipe_init lima_pipe_gp = 0)
    (hsp : env.sched_pipe_init lima_pipe_pp = 0)
    (hg : env.gp_pipe_init = eg) (heg : eg ≠ 0)
    (hp : env.pp_pipe_init = ep) (hep : ep ≠ 0) :
    (lima_init_gp_pipe env dev).1 = eg
    ∧ (lima_init_gp_pipe env dev).2.2 = [Event.sched_pipe_fini lima_pipe_gp]
    ∧ (lima_init_pp_pipe env dev).1 = ep
    ∧ (lima_init_pp_pipe env dev).2.2 = [Event.sched_pipe_fini lima_pipe_pp] := by
  refine ⟨?_, ?_, ?_, ?_⟩ <;>
    simp [lima_init_gp_pipe, lima_init_pp_pipe, hsg, hsp, hg, heg, hp, hep]

/-- Witness for claim C10 on a fresh Mali400 device with failing pipe
inits. -/
theorem claim_C10_witness :
    (lima_init_gp_pipe { gp_pipe_init := -5, pp_pipe_init := -6 } (mkDevice .mali400)).1 = -5
    ∧ (lima_init_pp_pipe { gp_pipe_init := -5, pp_pipe_init := -6 } (mkDevice .mali400)).2.2
        = [Event.sched_pipe_fini lima_pipe_pp] :=
  have h := claim_C10 { gp_pipe_init := -5, pp_pipe_init := -6 } (mkDevice .mali400)
    (-5) (-6) (by decide) (by decide) (by decide) (by decide) (by decide) (by decide)
  ⟨h.1, h.2.2.2⟩

lemma device_init_loop_branch (env : Env) (dev0 : lima_device)
    (h1 : (lima_clk_init env dev0).1 = 0)
    (h2 : (lima_regulator_init env (lima_clk_init env dev0).2).1 = 0)
    (h3 : env.vm_create_ok = true)
    (h4 : dev0.id = lima_gpu.mali450 → env.dlbu_alloc_ok = true)
    (h5 : env.ioremap_err = 0) :
    lima_device_init env dev0 =
      (let rl := initIpLoop env (devReady env dev0) (List.range lima_ip_num)
       if rl.err ≠ 0 then
         (rl.err, rl.dev, rl.tr ++ unwindIps rl.dev rl.idx ++ tailUnwind rl.dev)
       else
         let rg := lima_init_gp_pipe env rl.dev
         if rg.1 ≠ 0 then
           (rg.1, rg.2.1, rl.tr ++ rg.2.2 ++ unwindIps rg.2.1 lima_ip_num ++ tailUnwind rg.2.1)
         else
           let rp := lima_init_pp_pipe env rg.2.1
           if rp.1 ≠ 0 then
             (rp.1, rp.2.1, rl.tr ++ rg.2.2 ++ rp.2.2
               ++ [.gp_pipe_fini, .sched_pipe_fini lima_pipe_gp]
               ++ unwindIps rp.2.1 lima_ip_num ++ tailUnwind rp.2.1)
           else (0, rp.2.1, rl.tr ++ rg.2.2 ++ rp.2.2)) := by
  by_cases hid : dev0.id = lima_gpu.mali450
  · simp [lima_device_init, devReady, devPreMap, h1, h2, h3, h5, hid, h4 hid]
  · simp [lima_device_init, devReady, devPreMap, h1, h2, h3, h5, hid]

/-- Claim C1: when the bring-up loop fails fatally at table position `k`
(the mandatory slot `k`'s type-specific init returned the error), the
device-init trace's `fini` calls are exactly the slots at positions
`0..k-1` whose presence flag is set, in strictly descending position
order — so no slot at a position `≥ k` is finalized. -/
theorem claim_C1 (env : Env) (dev0 : lima_device)
    (h1 : (lima_clk_init env dev0).1 = 0)
    (h2 : (lima_regulator_init env (lima_clk_init env dev0).2).1 = 0)
    (h3 : env.vm_create_ok = true)
    (h4 : dev0.id = lima_gpu.mali450 → env.dlbu_alloc_ok = true)
    (h5 : env.ioremap_err = 0)
    (e : Int) (k : Nat) (devL : lima_device) (trL : List Event)
    (hloop : initIpLoop env (devReady env dev0) (List.range lima_ip_num)
        = ⟨e, k, devL, trL⟩)
    (he : e ≠ 0)
    (hmust : (lima_ip_desc k).must_have dev0.id = true)
    (hini : env.ip_init k = e) :
    (lima_device_init env dev0).1 = e
    ∧ (lima_device_init env dev0).2.2.filter isIpFini
        = ((List.range k).reverse.filter
            (fun j => ((lima_device_init env dev0).2.1.getIp j).present)).map
            Event.ip_fini_call := by
  have hrun : lima_device_init env dev0
      = (e, devL, trL ++ unwindIps devL k ++ tailUnwind devL) := by
    rw [device_init_loop_branch env dev0 h1 h2 h3 h4 h5]
    simp [hloop, he]
  refine ⟨by rw [hrun], ?_⟩
  rw [hrun]
  have h6 : trL.filter isIpFini = [] := by
    have h7 := initIpLoop_no_fini env (List.range lima_ip_num) (devReady env dev0)
    rw [hloop] at h7
    exact h7
  simp only [List.filter_append, h6, unwindIps_filter, tailUnwind_no_fini,
    List.nil_append, List.append_nil]
  exact unwindIps_desc devL k

/-- Witness for claim C1: Mali400 bring-up in which the mandatory geometry
processor (slot 4) fails its init; slots 1 and 0 get finalized in that
order. -/
theorem claim_C1_witness :
    (lima_device_init envC1 (mkDevice .mali400)).1 = -5
    ∧ (lima_device_init envC1 (mkDevice .mali400)).2.2.filter isIpFini
        = ((List.range 4).reverse.filter
            (fun j => ((lima_device_init envC1 (mkDevice .mali400)).2.1.getIp j).present)).map
            Event.ip_fini_call :=
  claim_C1 envC1 (mkDevice .mali400) (by decide) (by decide) (by decide)
    (by intro h; decide) (by decide) (-5) 4 loopC1.dev loopC1.tr rfl
    (by decide) (by decide) (by decide)

/-- Claim C3: if register-window mapping fails, no slot's type-specific
init is attempted, the DLBU page (when the variant allocated one), the
empty VM, the regulator and the clocks are released in that order, and
device init returns the mapping error. -/
theorem claim_C3 (env : Env) (dev0 : lima_device)
    (h1 : (lima_clk_init env dev0).1 = 0)
    (h2 : (lima_regulator_init env (lima_clk_init env dev0).2).1 = 0)
    (h3 : env.vm_create_ok = true)
    (h4 : dev0.id = lima_gpu.mali450 → env.dlbu_alloc_ok = true)
    (hfresh : dev0.dlbu_cpu = false)
    (e : Int) (hio : env.ioremap_err = e) (he : e ≠ 0) :
    lima_device_init env dev0
      = (e, devPreMap env dev0,
          (if dev0.id = lima_gpu.mali450 then [Event.dlbu_free] else [])
            ++ [Event.vm_put, Event.regulator_fini, Event.clk_fini])
    ∧ ∀ i, Event.ip_init_call i ∉ (lima_device_init env dev0).2.2 := by
  have hmain : lima_device_init env dev0
      = (e, devPreMap env dev0,
          (if dev0.id = lima_gpu.mali450 then [Event.dlbu_free] else [])
            ++ [Event.vm_put, Event.regulator_fini, Event.clk_fini]) := by
    by_cases hid : dev0.id = lima_gpu.mali450
    · simp [lima_device_init, devPreMap, tailUnwind, h1, h2, h3, hio, he, hid,
        h4 hid, hfresh]
    · simp [lima_device_init, devPreMap, tailUnwind, h1, h2, h3, hio, he, hid, hfresh]
  refine ⟨hmain, ?_⟩
  rw [hmain]
  intro i
  by_cases hid : dev0.id = lima_gpu.mali450 <;> simp [hid]

/-- Witness for claim C3: Mali450 bring-up whose register mapping fails
with `-EFAULT`. -/
theorem claim_C3_witness :
    lima_device_init { ioremap_err := -14 } (mkDevice .mali450)
      = (-14, devPreMap { ioremap_err := -14 } (mkDevice .mali450),
          (if (mkDevice .mali450).id = lima_gpu.mali450 then [Event.dlbu_free] else [])
            ++ [Event.vm_put, Event.regulator_fini, Event.clk_fini]) :=
  (claim_C3 { ioremap_err := -14 } (mkDevice .mali450) (by decide) (by decide)
    (by decide) (by intro h; decide) (by decide) (-14) (by decide) (by decide)).1
